import Mathlib

/-!
Verification development for the proxy_mock repository.

The repository has one source file, src/proxy_mock/any_catcher.py: the Flask
handlers of an HTTP mock server.  The handlers are embedded here as pure Lean
functions over an explicit server state.  The helper module
proxy_mock.mock_service (find_response, create_response, path_finder,
return_storage, delete_mock, cleanup_storage, proxy_request_to_host), the
schema proxy_mock.models.ConfigureMockRequestSchema and the constant
MOCK_PARAMS_STORAGE are imported by any_catcher.py but their code is not in
the repository snapshot; definitions for them below are modelled from the
design document of the system and carry a doc comment saying so.

Conventions of the embedding:
- a Python dict with fixed keys becomes a Lean structure;
- a Python value that may be None becomes an Option;
- Python truthiness tests (if x:) are made explicit: an Option is truthy when
  it holds a value that is itself truthy (a non-empty string, a non-zero
  number);
- raw bytes become List Nat (each element a byte value);
- time.sleep is recorded in the handler output (the slept field) instead of
  actually suspending;
- the outbound proxy call (an external HTTP client) is an oracle passed to
  the handler as a function argument;
- pickle.loads and pydantic validation are external collaborators: the
  handler receives their result as an Except value.
-/

namespace ProxyMock

/-- The body of a mock: Python None, a textual payload, or raw bytes. -/
inductive Body where
  | null : Body
  | text : String → Body
  | binary : List Nat → Body
deriving DecidableEq, Repr

/-- Header mapping, kept as an ordered association list. -/
abbrev Headers := List (String × String)

/-- The nested mock_data dict of a stored mock: body, status_code, headers. -/
structure MockData where
  body : Body
  status_code : Nat
  headers : Headers
deriving DecidableEq, Repr

/-- One stored mock, the dict returned by create_response and find_response:
keys extra_info, proxy_host, timeout, mock_data. -/
structure StoredMock where
  extra_info : Option String
  proxy_host : Option String
  timeout : Option ℚ
  mock_data : MockData
deriving DecidableEq, Repr

/-- The mock registry: at most one entry per normalized path (association
list keyed by path, kept duplicate-free by insertion). -/
abbrev Storage := List (String × StoredMock)

/-- A validated ConfigureMockRequestSchema payload, after model_dump(). -/
structure ValidData where
  path : String
  proxy_host : Option String
  timeout : Option ℚ
  body : Body
  status_code : Nat
  headers : Headers
deriving DecidableEq, Repr

/-- Extra field of ValidData: the free-form extra_info annotation. -/
structure ValidDataExtra where
  extra_info : Option String
deriving DecidableEq, Repr

/-- Python truthiness of an optional string: present and non-empty. -/
def truthyStr : Option String → Bool
  | none => false
  | some s => s != ""

/-- Python truthiness of an optional number: present and non-zero. -/
def truthyNum : Option ℚ → Bool
  | none => false
  | some t => t != 0

/-- Exact lookup of a path in the registry. -/
def lookupMock (st : Storage) (p : String) : Option StoredMock :=
  (st.find? (fun e => e.1 == p)).map (fun e => e.2)

/-- Modelled from the spec: mock_service.find_response, the dispatch-mode
matcher (design document 4.2, mode 1): exact match only, no fallback to
parent or wildcard paths; returns the stored mock dict or None. -/
def find_response (st : Storage) (p : String) : Option StoredMock :=
  lookupMock st p

/-- Character-level path normalization: ensure a leading slash, strip a
trailing slash (kept only when the whole path is the single slash). -/
def normalizeChars (l : List Char) : List Char :=
  let l2 := if l.head? = some '/' then l else '/' :: l
  if 2 ≤ l2.length && l2.getLast? = some '/' then l2.dropLast else l2

/-- Path normalization used at registration (design document 4.1): ensure a
leading slash, strip a trailing slash. -/
def normalize_path (p : String) : String :=
  String.mk (normalizeChars p.data)

/-- Modelled from the spec: mock_service.create_response / Registry.Register
(design document 4.1): normalizes the path, inserts or replaces the entry in
the storage at that path, and returns the stored representation. -/
def create_response (vd : ValidData) (ei : ValidDataExtra) (st : Storage) :
    StoredMock × Storage :=
  let p := normalize_path vd.path
  let m : StoredMock :=
    { extra_info := ei.extra_info
      proxy_host := vd.proxy_host
      timeout := vd.timeout
      mock_data :=
        { body := vd.body, status_code := vd.status_code, headers := vd.headers } }
  (m, (p, m) :: st.filter (fun e => e.1 != p))

/-- Modelled from the spec: mock_service.delete_mock / Registry.Delete
(design document 4.1): removes the entry at the path if it exists; returns
whether removal occurred, with the resulting storage. -/
def delete_mock (st : Storage) (p : String) : Bool × Storage :=
  if (lookupMock st p).isSome then (true, st.filter (fun e => e.1 != p))
  else (false, st)

/-- Modelled from the spec: mock_service.cleanup_storage / Registry.Clear
(design document 4.1): removes all entries; always succeeds. -/
def cleanup_storage (_st : Storage) : Bool × Storage :=
  (true, [])

/-- Lowercase hexadecimal digit. -/
def hexDigit (n : Nat) : Char :=
  if n < 10 then Char.ofNat (48 + n) else Char.ofNat (87 + n)

/-- Two lowercase hexadecimal digits of a byte. -/
def byteHex (c : Nat) : String :=
  String.mk [hexDigit (c / 16 % 16), hexDigit (c % 16)]

/-- One byte of the Python bytes repr, escaped as CPython does: backslash and
the quote are backslash-escaped, tab, newline and carriage return use their
letter escapes, other non-printable bytes use a hex escape. -/
def pyByteEscape (quote : Char) (c : Nat) : String :=
  if c = quote.toNat || c = 92 then String.mk ['\\', Char.ofNat c]
  else if c = 9 then "\\t"
  else if c = 10 then "\\n"
  else if c = 13 then "\\r"
  else if c < 32 || 127 ≤ c then "\\x" ++ byteHex c
  else String.mk [Char.ofNat c]

/-- Python str/repr of a bytes object: b followed by a quoted escaped body;
the quote is a single quote unless the bytes contain one and no double
quote. -/
def pyBytesRepr (b : List Nat) : String :=
  let quote : Char := if b.contains 39 && !(b.contains 34) then '"' else '\''
  "b" ++ String.mk [quote] ++ String.join (b.map (pyByteEscape quote)) ++ String.mk [quote]

/-- Python str() of a body value: None prints as the word None, a string
prints as itself, bytes print as their repr. -/
def pyStr : Body → String
  | Body.null => "None"
  | Body.text s => s
  | Body.binary b => pyBytesRepr b

/-- Display rendering of a body for storage introspection: a binary body is
rendered as its textual repr, other bodies are unchanged. -/
def render_body : Body → Body
  | Body.binary b => Body.text (pyBytesRepr b)
  | b => b

/-- Display rendering of a stored mock: the body is rendered, everything
else is unchanged. -/
def renderMock (m : StoredMock) : StoredMock :=
  { m with mock_data := { m.mock_data with body := render_body m.mock_data.body } }

/-- Modelled from the spec: mock_service.return_storage / Registry.Snapshot
(design document 4.1, 6): the full tree snapshot, with every binary body
rendered as a display string. -/
def return_storage (st : Storage) : Storage :=
  st.map (fun e => (e.1, renderMock e.2))

/-- Character-level splitting of a path into its slash-separated segments;
acc is the current segment read so far, in reverse. -/
def splitSegsAux : List Char → List Char → List String
  | [], acc => if acc.isEmpty then [] else [String.mk acc.reverse]
  | c :: rest, acc =>
    if c = '/' then
      (if acc.isEmpty then [] else [String.mk acc.reverse]) ++ splitSegsAux rest []
    else splitSegsAux rest (c :: acc)

/-- Path segments: the non-empty parts between slashes. -/
def splitSegs (p : String) : List String :=
  splitSegsAux p.data []

/-- Segment-wise path ancestry: every segment of p is matched, in order,
at the front of the segments of q. -/
def segPrefixOf (p q : String) : Bool :=
  List.isPrefixOf (splitSegs p) (splitSegs q)

/-- Modelled from the spec: mock_service.path_finder, the introspection-mode
matcher (design document 4.2, mode 2): follow the segments of the query path
down the storage tree and name the reached node, or None when no registered
entry lives at or below the query path; the empty query names the root. -/
def path_finder (st : Storage) (p : String) : Option String :=
  if p = "" then some ""
  else if st.any (fun e => segPrefixOf p e.1) then some p
  else none

/-- Modelled from the spec: the snapshot lookup data.get(path) used by the
storage endpoint (design document 4.2, 8): the subtree of the snapshot at the
resolved path, that is every entry whose path lies at or below it. -/
def snapshotGet (data : Storage) (p : String) : Storage :=
  data.filter (fun e => segPrefixOf p e.1)

/-- One captured inbound request in app.params_storage: the parameters taken
from the request by get_request_data (kept opaque), plus the extra_info key,
absent until the dispatch handler sets it on a match. -/
structure RequestData where
  params : String
  extra_info : Option (Option String)
deriving DecidableEq, Repr

/-- The response of the external host, as returned by the HTTP client used
by proxy_request_to_host: content, status_code, headers. -/
structure ProxyResponse where
  content : List Nat
  status_code : Nat
  headers : Headers
deriving DecidableEq, Repr

/-- A value returned by the catch_all handler: a jsonify error payload with
a status, a flask Response (body, status, headers, optional forced content
type), or a bare (body, status, headers) tuple. -/
inductive CatchAllResponse where
  | errorJson : String → Nat → CatchAllResponse
  | response : Body → Nat → Headers → Option String → CatchAllResponse
  | tuple : String → Nat → Headers → CatchAllResponse
deriving DecidableEq, Repr

/-- Observable outcome of one catch_all call: the params storage after the
call, the slept duration if time.sleep ran, and the returned value. -/
structure CatchAllOut where
  params_storage : List RequestData
  slept : Option ℚ
  response : CatchAllResponse
deriving DecidableEq, Repr

/-- Embedding of catch_all (src/proxy_mock/any_catcher.py, lines 101-151).
proxy is the oracle for proxy_request_to_host, st the mock storage, ps the
params storage before the call, p the request path, rd the request data
built by get_request_data. -/
def catch_all (proxy : String → ProxyResponse) (st : Storage)
    (ps : List RequestData) (p : String) (rd : RequestData) : CatchAllOut :=
  match find_response st p with
  | none =>
    { params_storage := ps ++ [rd]
      slept := none
      response := CatchAllResponse.errorJson ("Не найден мок " ++ p) 404 }
  | some mock_data =>
    let rd2 := { rd with extra_info := some mock_data.extra_info }
    let ps2 := ps ++ [rd2]
    if truthyStr mock_data.proxy_host then
      let proxy_response := proxy (mock_data.proxy_host.getD "")
      { params_storage := ps2
        slept := none
        response := CatchAllResponse.response (Body.binary proxy_response.content)
          proxy_response.status_code proxy_response.headers none }
    else
      let slept := if truthyNum mock_data.timeout then mock_data.timeout else none
      match mock_data.mock_data.body with
      | Body.null =>
        { params_storage := ps2
          slept := slept
          response := CatchAllResponse.response Body.null
            mock_data.mock_data.status_code mock_data.mock_data.headers none }
      | Body.binary b =>
        { params_storage := ps2
          slept := slept
          response := CatchAllResponse.response (Body.binary b)
            mock_data.mock_data.status_code mock_data.mock_data.headers
            (some "application/octet-stream") }
      | Body.text s =>
        { params_storage := ps2
          slept := slept
          response := CatchAllResponse.tuple s
            mock_data.mock_data.status_code mock_data.mock_data.headers }

/-- The response of a configure endpoint: its HTTP status, the success flag,
the structured validation error payload if any, the echoed path, and the
returned mock representation. -/
structure ConfigOut where
  status : Nat
  success : Bool
  error : Option String
  path : Option String
  data : Option StoredMock
deriving DecidableEq, Repr

/-- Embedding of configure_mock (src/proxy_mock/any_catcher.py, lines
60-76).  The pydantic validation of request.json is an external
collaborator; its result arrives as an Except: a structured error payload or
the validated data. -/
def configure_mock (validated : Except String (ValidData × ValidDataExtra))
    (st : Storage) : ConfigOut × Storage :=
  match validated with
  | Except.error err =>
    ({ status := 400, success := false, error := some err, path := none, data := none }, st)
  | Except.ok (vd, ei) =>
    let r := create_response vd ei st
    ({ status := 201, success := true, error := none,
       path := some vd.path, data := some r.1 }, r.2)

/-- Outcome of the binary configure handler: either a response was returned,
or an exception escaped the handler unhandled. -/
inductive BinaryOutcome where
  | handled : ConfigOut → BinaryOutcome
  | unhandled : String → BinaryOutcome
deriving DecidableEq, Repr

/-- Embedding of configure_binary_mock (src/proxy_mock/any_catcher.py, lines
79-98).  pickle.loads(request.data) runs before the try block, so a failed
deserialization escapes the handler; validation runs inside the try block
and a ValidationError becomes the 400 response.  On success the handler
deep-copies the created mock and stringifies only the body of the copy, so
the copy in the response differs from the stored entry.  α is the type of
the unpickled payload. -/
def configure_binary_mock {α : Type}
    (unpickled : Except String α)
    (validate : α → Except String (ValidData × ValidDataExtra))
    (st : Storage) : BinaryOutcome × Storage :=
  match unpickled with
  | Except.error e => (BinaryOutcome.unhandled e, st)
  | Except.ok input =>
    match validate input with
    | Except.error err =>
      (BinaryOutcome.handled
        { status := 400, success := false, error := some err, path := none, data := none }, st)
    | Except.ok (vd, ei) =>
      let r := create_response vd ei st
      let mock_data := r.1
      let copy :=
        { mock_data with
          mock_data := { mock_data.mock_data with
                         body := Body.text (pyStr mock_data.mock_data.body) } }
      (BinaryOutcome.handled
        { status := 201, success := true, error := none,
          path := some vd.path, data := some copy }, r.2)

/-- The response of the cleanup endpoint together with the storage after the
call: HTTP status, success flag, the rendered snapshot of the resulting
storage, and the resulting storage itself. -/
structure ClearStorageOut where
  status : Nat
  success : Bool
  data : Storage
  storage : Storage
deriving DecidableEq, Repr

/-- Embedding of clear_storage (src/proxy_mock/any_catcher.py, lines
165-180).  pathParam is the optional path query parameter; the code tests it
for truthiness, so an empty string falls through to the full cleanup. -/
def clear_storage (st : Storage) (pathParam : Option String) : ClearStorageOut :=
  let r :=
    match pathParam with
    | some p => if p != "" then delete_mock st p else cleanup_storage st
    | none => cleanup_storage st
  { status := 200, success := r.1, data := return_storage r.2, storage := r.2 }

/-- The response of the storage introspection endpoint: HTTP status, success
flag, and the data payload, None when the queried path was not found. -/
structure StorageOut where
  status : Nat
  success : Bool
  data : Option Storage
deriving DecidableEq, Repr

/-- Embedding of get_storage (src/proxy_mock/any_catcher.py, lines 183-202).
pathParam is the optional path query parameter; both walrus assignments test
truthiness, so an empty parameter yields the full snapshot and a path that
path_finder does not resolve yields None data. -/
def get_storage (st : Storage) (pathParam : Option String) : StorageOut :=
  let data := return_storage st
  let d :=
    match pathParam with
    | some p =>
      if p != "" then
        match path_finder st p with
        | some q => some (snapshotGet data q)
        | none => none
      else some data
    | none => some data
  { status := 200, success := true, data := d }

/-! Helper lemmas shared by the claim theorems. -/

theorem normalizeChars_ne_nil (l : List Char) : normalizeChars l ≠ [] := by
  unfold normalizeChars
  by_cases hh : l.head? = some '/'
  · simp only [if_pos hh]
    split
    · rename_i hc
      simp only [Bool.and_eq_true, decide_eq_true_eq] at hc
      intro hn
      have hlen := congrArg List.length hn
      simp [List.length_dropLast] at hlen
      omega
    · intro hn
      rw [hn] at hh
      simp at hh
  · simp only [if_neg hh]
    split
    · rename_i hc
      simp only [Bool.and_eq_true, decide_eq_true_eq, List.length_cons] at hc
      intro hn
      have hlen : ('/' :: l).dropLast.length = 0 := by rw [hn]; rfl
      rw [List.length_dropLast] at hlen
      simp only [List.length_cons, Nat.add_sub_cancel] at hlen
      omega
    · simp

theorem normalize_path_ne_empty (p : String) : normalize_path p ≠ "" := by
  intro h
  have hdata : normalizeChars p.data = ("" : String).data := congrArg String.data h
  exact normalizeChars_ne_nil p.data hdata

theorem isPrefixOf_self (l : List String) : List.isPrefixOf l l = true := by
  induction l with
  | nil => rfl
  | cons a t ih => simp [List.isPrefixOf, ih]

theorem segPrefixOf_self (p : String) : segPrefixOf p p = true := by
  unfold segPrefixOf
  exact isPrefixOf_self (splitSegs p)

theorem isPrefixOf_nil_left (l : List String) : List.isPrefixOf [] l = true := by
  cases l <;> rfl

theorem splitSegs_empty : splitSegs "" = [] := rfl

theorem segPrefixOf_empty_left (q : String) : segPrefixOf "" q = true := by
  unfold segPrefixOf
  rw [splitSegs_empty]
  exact isPrefixOf_nil_left (splitSegs q)

theorem snapshotGet_empty_path (data : Storage) : snapshotGet data "" = data := by
  unfold snapshotGet
  induction data with
  | nil => rfl
  | cons e t ih => simp [List.filter, segPrefixOf_empty_left, ih]

/-- Witness fixtures: a proxy oracle, request data and mock entries used to
instantiate the claim theorems at concrete inputs. -/
def wProxy : String → ProxyResponse :=
  fun _ => { content := [7, 8, 9], status_code := 502, headers := [("Via", "upstream")] }

def wReq : RequestData :=
  { params := "GET /a", extra_info := none }

def wMock : StoredMock :=
  { extra_info := some "note"
    proxy_host := none
    timeout := none
    mock_data := { body := Body.text "hello", status_code := 200, headers := [("X", "1")] } }

/-- C1: every request handled by catch_all appends exactly one record to the
params storage, matched or not; on a match the appended record carries the
matched entry's extra_info, on a miss it carries none. -/
theorem C1_catch_all_records_exactly_one (proxy : String → ProxyResponse)
    (st : Storage) (ps : List RequestData) (p : String) (rd : RequestData)
    (h : rd.extra_info = none) :
    (catch_all proxy st ps p rd).params_storage =
      ps ++ [{ rd with extra_info := (find_response st p).map StoredMock.extra_info }] ∧
    (catch_all proxy st ps p rd).params_storage.length = ps.length + 1 := by
  have hmain : (catch_all proxy st ps p rd).params_storage =
      ps ++ [{ rd with extra_info := (find_response st p).map StoredMock.extra_info }] := by
    cases hf : find_response st p with
    | none =>
      cases rd with
      | mk pa ei =>
        simp only [RequestData.mk.injEq] at h ⊢
        simp [catch_all, hf, h]
    | some m =>
      cases m with
      | mk ei ph tm md =>
        cases md with
        | mk b sc hd =>
          cases b <;> by_cases hp : truthyStr ph <;>
            simp [catch_all, hf, hp]
  refine ⟨hmain, ?_⟩
  rw [hmain]
  simp

/-- Witness for C1: a concrete matched request appends one record carrying
the entry's extra_info. -/
theorem C1_witness :
    (catch_all wProxy [("/a", wMock)] [] "/a" wReq).params_storage =
      [] ++ [{ wReq with
               extra_info := (find_response [("/a", wMock)] "/a").map StoredMock.extra_info }] ∧
    (catch_all wProxy [("/a", wMock)] [] "/a" wReq).params_storage.length =
      List.length ([] : List RequestData) + 1 :=
  C1_catch_all_records_exactly_one wProxy [("/a", wMock)] [] "/a" wReq rfl

/-- C2: dispatch is exact-match only: when the registry has no entry exactly
at the request path the handler returns the 404 error payload and the
request is still recorded. -/
theorem C2_exact_match_only_404 (proxy : String → ProxyResponse)
    (st : Storage) (ps : List RequestData) (p : String) (rd : RequestData)
    (h : lookupMock st p = none) :
    (catch_all proxy st ps p rd).response =
      CatchAllResponse.errorJson ("Не найден мок " ++ p) 404 ∧
    (catch_all proxy st ps p rd).params_storage = ps ++ [rd] := by
  have hf : find_response st p = none := h
  simp [catch_all, hf]

/-- Witness for C2: with only /a/b registered, requesting the ancestor /a is
a miss answered 404 and recorded. -/
theorem C2_witness :
    lookupMock [("/a/b", wMock)] "/a" = none ∧
    ((catch_all wProxy [("/a/b", wMock)] [] "/a" wReq).response =
      CatchAllResponse.errorJson ("Не найден мок " ++ "/a") 404 ∧
     (catch_all wProxy [("/a/b", wMock)] [] "/a" wReq).params_storage = [] ++ [wReq]) :=
  ⟨by decide, C2_exact_match_only_404 wProxy [("/a/b", wMock)] [] "/a" wReq (by decide)⟩

/-- Witness fixture: a mock entry with a proxy host, a timeout and a local
body, to show the proxy branch wins over both. -/
def wMockProxy : StoredMock :=
  { extra_info := none
    proxy_host := some "http://upstream.example"
    timeout := some 2
    mock_data := { body := Body.text "local", status_code := 200, headers := [] } }

/-- Witness fixture: a mock entry with a half-second timeout. -/
def wMockTimeout : StoredMock :=
  { extra_info := none
    proxy_host := none
    timeout := some ⟨1, 2, by decide, by decide⟩
    mock_data := { body := Body.null, status_code := 204, headers := [] } }

/-- Witness fixture: a mock entry with a binary body. -/
def wMockBin : StoredMock :=
  { extra_info := none
    proxy_host := none
    timeout := none
    mock_data := { body := Body.binary [0, 65, 10], status_code := 200, headers := [] } }

/-- C3: a matched entry with a proxy host delegates to the proxy oracle and
returns its content, status and headers verbatim; no sleep happens and the
entry's own body, status and headers are not consulted. -/
theorem C3_proxy_delegation_precedence (proxy : String → ProxyResponse)
    (st : Storage) (ps : List RequestData) (p : String) (rd : RequestData)
    (m : StoredMock) (host : String)
    (h1 : find_response st p = some m) (h2 : m.proxy_host = some host)
    (h3 : host ≠ "") :
    (catch_all proxy st ps p rd).response =
      CatchAllResponse.response (Body.binary (proxy host).content)
        (proxy host).status_code (proxy host).headers none ∧
    (catch_all proxy st ps p rd).slept = none := by
  simp [catch_all, h1, h2, truthyStr, h3]

/-- Witness for C3: a concrete proxied mock, carrying both a timeout and a
local body that the response ignores. -/
theorem C3_witness :
    (catch_all wProxy [("/p", wMockProxy)] [] "/p" wReq).response =
      CatchAllResponse.response (Body.binary (wProxy "http://upstream.example").content)
        (wProxy "http://upstream.example").status_code
        (wProxy "http://upstream.example").headers none ∧
    (catch_all wProxy [("/p", wMockProxy)] [] "/p" wReq).slept = none :=
  C3_proxy_delegation_precedence wProxy [("/p", wMockProxy)] [] "/p" wReq wMockProxy
    "http://upstream.example" (by decide) rfl (by decide)

/-- C5: a matched entry without a proxy host renders locally: a None body
gives an empty response body with the entry's status and headers, a bytes
body gives the raw bytes with the content type forced to the octet-stream
type, and a textual body is returned verbatim as a bare tuple. -/
theorem C5_local_body_rendering (proxy : String → ProxyResponse)
    (st : Storage) (ps : List RequestData) (p : String) (rd : RequestData)
    (m : StoredMock)
    (h1 : find_response st p = some m) (h2 : truthyStr m.proxy_host = false) :
    (m.mock_data.body = Body.null →
      (catch_all proxy st ps p rd).response =
        CatchAllResponse.response Body.null m.mock_data.status_code
          m.mock_data.headers none) ∧
    (∀ b, m.mock_data.body = Body.binary b →
      (catch_all proxy st ps p rd).response =
        CatchAllResponse.response (Body.binary b) m.mock_data.status_code
          m.mock_data.headers (some "application/octet-stream")) ∧
    (∀ s, m.mock_data.body = Body.text s →
      (catch_all proxy st ps p rd).response =
        CatchAllResponse.tuple s m.mock_data.status_code m.mock_data.headers) := by
  refine ⟨?_, ?_, ?_⟩
  · intro hb
    simp [catch_all, h1, h2, hb]
  · intro b hb
    simp [catch_all, h1, h2, hb]
  · intro s hb
    simp [catch_all, h1, h2, hb]

/-- Witness for C5: a concrete binary-body mock is served as raw bytes with
the forced octet-stream content type. -/
theorem C5_witness :
    (wMockBin.mock_data.body = Body.null →
      (catch_all wProxy [("/b", wMockBin)] [] "/b" wReq).response =
        CatchAllResponse.response Body.null wMockBin.mock_data.status_code
          wMockBin.mock_data.headers none) ∧
    (∀ b, wMockBin.mock_data.body = Body.binary b →
      (catch_all wProxy [("/b", wMockBin)] [] "/b" wReq).response =
        CatchAllResponse.response (Body.binary b) wMockBin.mock_data.status_code
          wMockBin.mock_data.headers (some "application/octet-stream")) ∧
    (∀ s, wMockBin.mock_data.body = Body.text s →
      (catch_all wProxy [("/b", wMockBin)] [] "/b" wReq).response =
        CatchAllResponse.tuple s wMockBin.mock_data.status_code
          wMockBin.mock_data.headers) :=
  C5_local_body_rendering wProxy [("/b", wMockBin)] [] "/b" wReq wMockBin
    (by decide) rfl

/-- C6: for a matched entry without a proxy host, a timeout greater than
zero makes the handler sleep for exactly that many seconds before rendering,
and an absent or zero timeout sleeps not at all. -/
theorem C6_timeout_sleep (proxy : String → ProxyResponse)
    (st : Storage) (ps : List RequestData) (p : String) (rd : RequestData)
    (m : StoredMock)
    (h1 : find_response st p = some m) (h2 : truthyStr m.proxy_host = false) :
    (∀ t : ℚ, m.timeout = some t → 0 < t →
      (catch_all proxy st ps p rd).slept = some t) ∧
    ((m.timeout = none ∨ m.timeout = some 0) →
      (catch_all proxy st ps p rd).slept = none) := by
  constructor
  · intro t ht hpos
    have hne : t ≠ 0 := hpos.ne'
    cases hb : m.mock_data.body <;>
      simp [catch_all, h1, h2, hb, ht, truthyNum, hne]
  · intro hcase
    rcases hcase with hnone | hzero
    · cases hb : m.mock_data.body <;>
        simp [catch_all, h1, h2, hb, hnone, truthyNum]
    · cases hb : m.mock_data.body <;>
        simp [catch_all, h1, h2, hb, hzero, truthyNum]

/-- Witness for C6: a concrete half-second timeout is slept. -/
theorem C6_witness :
    (∀ t : ℚ, wMockTimeout.timeout = some t → 0 < t →
      (catch_all wProxy [("/t", wMockTimeout)] [] "/t" wReq).slept = some t) ∧
    ((wMockTimeout.timeout = none ∨ wMockTimeout.timeout = some 0) →
      (catch_all wProxy [("/t", wMockTimeout)] [] "/t" wReq).slept = none) :=
  C6_timeout_sleep wProxy [("/t", wMockTimeout)] [] "/t" wReq wMockTimeout
    (by decide) rfl

/-- C10: a pickle deserialization failure escapes configure_binary_mock
unhandled, leaving the storage untouched; a validation failure after a
successful unpickle is converted into the 400 response with the structured
error payload, also leaving the storage untouched. -/
theorem C10_binary_error_propagation {α : Type}
    (validate : α → Except String (ValidData × ValidDataExtra)) (st : Storage) :
    (∀ e, configure_binary_mock (Except.error e) validate st =
      (BinaryOutcome.unhandled e, st)) ∧
    (∀ (input : α) err, validate input = Except.error err →
      configure_binary_mock (Except.ok input) validate st =
        (BinaryOutcome.handled
          { status := 400, success := false, error := some err,
            path := none, data := none }, st)) := by
  constructor
  · intro e
    rfl
  · intro input err h
    simp [configure_binary_mock, h]

/-- Witness fixture: a validation oracle over Bool inputs that accepts true
with a binary-body mock payload and rejects false with an error. -/
def wValidate : Bool → Except String (ValidData × ValidDataExtra) :=
  fun input =>
    if input then
      Except.ok
        ({ path := "a/b/"
           proxy_host := none
           timeout := none
           body := Body.binary [0, 65, 10]
           status_code := 200
           headers := [("X", "1")] },
         { extra_info := some "bin" })
    else Except.error "validation failed"

/-- Witness for C10: a concrete failing unpickle escapes, and a concrete
validation failure becomes the 400 payload. -/
theorem C10_witness :
    (∀ e, configure_binary_mock (Except.error e) wValidate [] =
      (BinaryOutcome.unhandled e, [])) ∧
    (∀ (input : Bool) err, wValidate input = Except.error err →
      configure_binary_mock (Except.ok input) wValidate [] =
        (BinaryOutcome.handled
          { status := 400, success := false, error := some err,
            path := none, data := none }, [])) :=
  C10_binary_error_propagation wValidate []

/-- C8: on a successful binary configuration the registry stores the entry
with its original raw bytes as body — identical to what the non-binary
endpoint would have stored — while the 201 response payload carries a copy
whose body is the display string of those bytes. -/
theorem C8_binary_response_is_deep_copy {α : Type} (input : α)
    (validate : α → Except String (ValidData × ValidDataExtra)) (st : Storage)
    (vd : ValidData) (ei : ValidDataExtra) (b : List Nat)
    (h1 : validate input = Except.ok (vd, ei)) (h2 : vd.body = Body.binary b) :
    ∃ m : StoredMock,
      lookupMock (configure_binary_mock (Except.ok input) validate st).2
        (normalize_path vd.path) = some m ∧
      m.mock_data.body = Body.binary b ∧
      (configure_binary_mock (Except.ok input) validate st).1 =
        BinaryOutcome.handled
          { status := 201, success := true, error := none, path := some vd.path,
            data := some { m with mock_data :=
              { m.mock_data with body := Body.text (pyBytesRepr b) } } } ∧
      (configure_binary_mock (Except.ok input) validate st).2 =
        (configure_mock (Except.ok (vd, ei)) st).2 := by
  refine ⟨(create_response vd ei st).1, ?_, ?_, ?_, ?_⟩
  · simp [configure_binary_mock, h1, create_response, lookupMock, List.find?]
  · simp [create_response, h2]
  · simp [configure_binary_mock, h1, create_response, pyStr, h2]
  · simp [configure_binary_mock, configure_mock, h1]

/-- Witness for C8: the concrete binary mock fixture is stored raw and
echoed stringified. -/
theorem C8_witness :
    ∃ m : StoredMock,
      lookupMock (configure_binary_mock (Except.ok true) wValidate []).2
        (normalize_path "a/b/") = some m ∧
      m.mock_data.body = Body.binary [0, 65, 10] ∧
      (configure_binary_mock (Except.ok true) wValidate []).1 =
        BinaryOutcome.handled
          { status := 201, success := true, error := none, path := some "a/b/",
            data := some { m with mock_data :=
              { m.mock_data with body := Body.text (pyBytesRepr [0, 65, 10]) } } } ∧
      (configure_binary_mock (Except.ok true) wValidate []).2 =
        (configure_mock (Except.ok
          ({ path := "a/b/"
             proxy_host := none
             timeout := none
             body := Body.binary [0, 65, 10]
             status_code := 200
             headers := [("X", "1")] },
           { extra_info := some "bin" })) []).2 :=
  C8_binary_response_is_deep_copy true wValidate []
    { path := "a/b/"
      proxy_host := none
      timeout := none
      body := Body.binary [0, 65, 10]
      status_code := 200
      headers := [("X", "1")] }
    { extra_info := some "bin" } [0, 65, 10] rfl rfl

/-- C4: after submitting a mock with a raw-bytes body through the binary
endpoint, querying the storage endpoint at its path answers 200 with success
and a payload whose entry at that path carries the body as the display
string of the original bytes, not as a binary body. -/
theorem C4_binary_round_trip {α : Type} (input : α)
    (validate : α → Except String (ValidData × ValidDataExtra)) (st : Storage)
    (vd : ValidData) (ei : ValidDataExtra) (b : List Nat)
    (h1 : validate input = Except.ok (vd, ei)) (h2 : vd.body = Body.binary b) :
    (get_storage (configure_binary_mock (Except.ok input) validate st).2
      (some (normalize_path vd.path))).status = 200 ∧
    (get_storage (configure_binary_mock (Except.ok input) validate st).2
      (some (normalize_path vd.path))).success = true ∧
    ∃ (l : Storage) (m : StoredMock),
      (get_storage (configure_binary_mock (Except.ok input) validate st).2
        (some (normalize_path vd.path))).data = some l ∧
      (normalize_path vd.path, m) ∈ l ∧
      m.mock_data.body = Body.text (pyBytesRepr b) ∧
      ∀ bs, m.mock_data.body ≠ Body.binary bs := by
  have hne : normalize_path vd.path ≠ "" := normalize_path_ne_empty vd.path
  have hst2 : (configure_binary_mock (Except.ok input) validate st).2 =
      (normalize_path vd.path, (create_response vd ei st).1) ::
        st.filter (fun e => e.1 != normalize_path vd.path) := by
    simp [configure_binary_mock, h1, create_response]
  have hpf : path_finder (configure_binary_mock (Except.ok input) validate st).2
      (normalize_path vd.path) = some (normalize_path vd.path) := by
    unfold path_finder
    rw [if_neg hne, hst2]
    simp [segPrefixOf_self]
  have hout : get_storage (configure_binary_mock (Except.ok input) validate st).2
      (some (normalize_path vd.path)) =
      { status := 200, success := true,
        data := some (snapshotGet
          (return_storage (configure_binary_mock (Except.ok input) validate st).2)
          (normalize_path vd.path)) } := by
    unfold get_storage
    simp [hpf, hne]
  refine ⟨by rw [hout], by rw [hout],
    snapshotGet (return_storage (configure_binary_mock (Except.ok input) validate st).2)
      (normalize_path vd.path),
    renderMock (create_response vd ei st).1, by rw [hout], ?_, ?_, ?_⟩
  · rw [hst2]
    unfold return_storage snapshotGet
    simp only [List.map_cons]
    exact List.mem_filter.mpr
      ⟨List.mem_cons_self _ _, by simpa using segPrefixOf_self (normalize_path vd.path)⟩
  · simp [renderMock, create_response, render_body, h2]
  · intro bs
    simp [renderMock, create_response, render_body, h2]

/-- Witness for C4: the concrete binary mock fixture, fetched back through
the storage endpoint, shows its body as the bytes display string. -/
theorem C4_witness :
    (get_storage (configure_binary_mock (Except.ok true) wValidate []).2
      (some (normalize_path "a/b/"))).status = 200 ∧
    (get_storage (configure_binary_mock (Except.ok true) wValidate []).2
      (some (normalize_path "a/b/"))).success = true ∧
    ∃ (l : Storage) (m : StoredMock),
      (get_storage (configure_binary_mock (Except.ok true) wValidate []).2
        (some (normalize_path "a/b/"))).data = some l ∧
      (normalize_path "a/b/", m) ∈ l ∧
      m.mock_data.body = Body.text (pyBytesRepr [0, 65, 10]) ∧
      ∀ bs, m.mock_data.body ≠ Body.binary bs :=
  C4_binary_round_trip true wValidate []
    { path := "a/b/"
      proxy_host := none
      timeout := none
      body := Body.binary [0, 65, 10]
      status_code := 200
      headers := [("X", "1")] }
    { extra_info := some "bin" } [0, 65, 10] rfl rfl

/-- C7: the storage endpoint always answers 200 with success; a path query
that path_finder does not resolve yields None data, a resolved path yields
the subtree of the snapshot at the queried path, and the query without a
path yields the full snapshot. -/
theorem C7_storage_query (st : Storage) (p : String) :
    (get_storage st (some p)).status = 200 ∧
    (get_storage st (some p)).success = true ∧
    (path_finder st p = none → (get_storage st (some p)).data = none) ∧
    (∀ q, path_finder st p = some q →
      (get_storage st (some p)).data = some (snapshotGet (return_storage st) p)) ∧
    (get_storage st none).data = some (return_storage st) := by
  refine ⟨rfl, rfl, ?_, ?_, rfl⟩
  · intro h
    have hp : p ≠ "" := by
      intro he
      rw [he] at h
      simp [path_finder] at h
    simp [get_storage, h, hp]
  · intro q hq
    by_cases hp : p = ""
    · subst hp
      have hq2 : q = "" := by
        have h0 := hq
        simp [path_finder] at h0
        exact h0.symm
      subst hq2
      simp [get_storage, snapshotGet_empty_path]
    · have hq2 : q = p := by
        unfold path_finder at hq
        rw [if_neg hp] at hq
        split at hq
        · exact (Option.some_inj.mp hq).symm
        · simp at hq
      subst hq2
      simp [get_storage, hp, hq]

/-- Witness for C7: with /a/b registered, querying /x yields None data and
querying the ancestor /a yields the subtree holding the /a/b entry. -/
theorem C7_witness :
    path_finder [("/a/b", wMock)] "/x" = none ∧
    (get_storage [("/a/b", wMock)] (some "/x")).data = none ∧
    path_finder [("/a/b", wMock)] "/a" = some "/a" ∧
    (get_storage [("/a/b", wMock)] (some "/a")).data =
      some (snapshotGet (return_storage [("/a/b", wMock)]) "/a") :=
  ⟨by decide,
   (C7_storage_query [("/a/b", wMock)] "/x").2.2.1 (by decide),
   by decide,
   (C7_storage_query [("/a/b", wMock)] "/a").2.2.2.1 "/a" (by decide)⟩

/-- C9: a cleanup request whose path parameter is present but empty clears
the whole storage, exactly like a request without the parameter; every
cleanup request answers 200 with the snapshot of the resulting storage and
the success flag of the operation that ran. -/
theorem C9_cleanup_empty_path_clears_all (st : Storage) :
    (clear_storage st (some "") = clear_storage st none ∧
     (clear_storage st (some "")).storage = [] ∧
     (clear_storage st (some "")).success = true) ∧
    (∀ pp, (clear_storage st pp).status = 200 ∧
      (clear_storage st pp).data = return_storage (clear_storage st pp).storage) ∧
    (∀ p2, p2 ≠ "" →
      (clear_storage st (some p2)).success = (delete_mock st p2).1 ∧
      (clear_storage st (some p2)).storage = (delete_mock st p2).2) := by
  refine ⟨⟨rfl, rfl, rfl⟩, ?_, ?_⟩
  · intro pp
    cases pp with
    | none => exact ⟨rfl, rfl⟩
    | some p2 => exact ⟨rfl, rfl⟩
  · intro p2 h
    constructor <;> simp [clear_storage, h]

/-- Witness for C9: a concrete two-entry storage is fully cleared by the
empty path parameter. -/
theorem C9_witness :
    (clear_storage [("/a", wMock), ("/a/b", wMockBin)] (some "") =
       clear_storage [("/a", wMock), ("/a/b", wMockBin)] none ∧
     (clear_storage [("/a", wMock), ("/a/b", wMockBin)] (some "")).storage = [] ∧
     (clear_storage [("/a", wMock), ("/a/b", wMockBin)] (some "")).success = true) ∧
    (∀ pp, (clear_storage [("/a", wMock), ("/a/b", wMockBin)] pp).status = 200 ∧
      (clear_storage [("/a", wMock), ("/a/b", wMockBin)] pp).data =
        return_storage (clear_storage [("/a", wMock), ("/a/b", wMockBin)] pp).storage) ∧
    (∀ p2, p2 ≠ "" →
      (clear_storage [("/a", wMock), ("/a/b", wMockBin)] (some p2)).success =
        (delete_mock [("/a", wMock), ("/a/b", wMockBin)] p2).1 ∧
      (clear_storage [("/a", wMock), ("/a/b", wMockBin)] (some p2)).storage =
        (delete_mock [("/a", wMock), ("/a/b", wMockBin)] p2).2) :=
  C9_cleanup_empty_path_clears_all [("/a", wMock), ("/a/b", wMockBin)]

end ProxyMock
